import Mathlib

/-!
Verification of the MCS session-protocol and action-validation layer.

Shallow embedding of `src/machine_common_sense/controller.py` (the primary
variant, called "ctrl" below) and, where a claim compares variants, of
`src/python_api/machine_common_sense/controller_ai2thor.py` (the "thor"
variant).  Python floats are embedded as rationals (the code performs only
field arithmetic on them); engine image/depth/mask buffers are opaque
tokens; the external AI2-THOR engine is an oracle argument supplying one
response event per step call.

Modules of this repository that are not under `src/` (the `Action` enum,
`Util`, `GoalMetadata`, `HistoryWriter`, `SceneHistory`) are modelled from
the spec where needed; each such definition carries a doc comment starting
with `Modelled from the spec:`.
-/

namespace MCS

/-! ## Constants (from `src/machine_common_sense/controller.py`) -/

/-- `MAX_REACH_DISTANCE = 1.0` (controller.py line 22). -/
def MAX_REACH_DISTANCE : ℚ := 1

/-- `MOVE_DISTANCE = 0.1` (controller.py line 25): fixed per-step locomotion distance. -/
def MOVE_DISTANCE : ℚ := 1/10

/-- Default screen height: `int(SCREEN_WIDTH_DEFAULT / 3 * 2)` with width 600 gives 400. -/
def SCREEN_HEIGHT_DEFAULT : ℚ := 400

/-- `MAX_FORCE` is assigned twice in the source (50.0 at line 96, then 1 at
line 105); Python keeps the later class-attribute binding, so its value is 1. -/
def MAX_FORCE : ℚ := 1

def MIN_FORCE : ℚ := 0

def MAX_AMOUNT : ℚ := 1

def MIN_AMOUNT : ℚ := 0

def DEFAULT_HORIZON : ℚ := 0

def DEFAULT_ROTATION : ℚ := 0

def DEFAULT_FORCE : ℚ := 1/2

def DEFAULT_AMOUNT : ℚ := 1/2

def DEFAULT_IMG_COORD : ℚ := 0

def DEFAULT_OBJECT_MOVE_AMOUNT : ℚ := 1

/-- `FORCE_ACTIONS` (controller.py line 123). -/
def FORCE_ACTIONS : List String := ["ThrowObject", "PushObject", "PullObject"]

/-- `OBJECT_MOVE_ACTIONS` (controller.py line 124). -/
def OBJECT_MOVE_ACTIONS : List String := ["CloseObject", "OpenObject"]

/-- `MOVE_ACTIONS` (controller.py line 125). -/
def MOVE_ACTIONS : List String := ["MoveAhead", "MoveLeft", "MoveRight", "MoveBack"]

/-- Modelled from the spec: the full universe of supported action names
(`ACTION_LIST = [item.value for item in Action]`; the `Action` enum module is
not under `src/`).  The spec calls it "the full universe of supported
actions"; the members used by the source under `src/` (the three category
lists, `Pass`, `EndHabituation`, `PickupObject`, `PutObject`, `RotateLook`,
`DropObject`) are all included. -/
def ACTION_LIST : List String :=
  ["CloseObject", "DropObject", "MoveAhead", "MoveBack", "MoveLeft", "MoveRight",
   "OpenObject", "PickupObject", "PullObject", "PushObject", "PutObject",
   "RotateLook", "ThrowObject", "Pass", "EndHabituation"]

/-- Bounds of `generate_noise` (controller.py line 1104:
`random.uniform(-0.5, 0.5)`; note the function's own docstring says 0.05 but
the code returns a value in [-0.5, 0.5] — the code is the authority here). -/
def NOISE_LO : ℚ := -(1/2)

def NOISE_HI : ℚ := 1/2

/-! ## Raw action parameters

A raw keyword parameter may be missing, present but non-numeric, or a
number.  `kwargs.get(key, default)` yields the default when missing; the
`Util.is_number` guard then substitutes a documented default when the
present value is not numeric. -/

inductive RawVal where
  | missing
  | nonNumeric
  | num (q : ℚ)
deriving DecidableEq

/-- The numeric value reaching the range check: the `kwargs.get` default when
the key is missing, the `Util.is_number` fallback default when non-numeric
(in the source both defaults coincide per parameter), else the raw number. -/
def RawVal.getOr (v : RawVal) (default : ℚ) : ℚ :=
  match v with
  | .num q => q
  | _ => default

/-- Modelled from the spec: `Util.is_in_range(value, min, max, default, label)`
(the `Util` module is not under `src/`).  Per spec sections 4.2 and 7, an
out-of-range numeric value is handled by substitution of the documented
default, with a warning; an in-range value passes through. -/
def is_in_range (value lo hi default : ℚ) : ℚ :=
  if lo ≤ value ∧ value ≤ hi then value else default

/-- Raw parameters of a ctrl-variant `step` call.  `rotation`/`horizon` carry
no `Util.is_number` guard in this variant (a non-numeric value would flow
into the engine payload unchanged), so they are embedded as
missing-or-numeric; every guarded parameter is a full `RawVal`. -/
structure RawParams where
  rotation : Option ℚ := none
  horizon : Option ℚ := none
  amount : RawVal := .missing
  force : RawVal := .missing
  objectImageCoordsX : RawVal := .missing
  objectImageCoordsY : RawVal := .missing
  receptacleObjectImageCoordsX : RawVal := .missing
  receptacleObjectImageCoordsY : RawVal := .missing
  objectId : Option String := none
  receptacleObjectId : Option String := none
deriving DecidableEq

/-- The validated `amount`: default is `DEFAULT_OBJECT_MOVE_AMOUNT` for
object-move actions and `DEFAULT_AMOUNT` otherwise (both when missing and
when non-numeric), then the range check with fallback `DEFAULT_AMOUNT`
(controller.py lines 388-411 and 438-443). -/
def validated_amount (action : String) (p : RawParams) : ℚ :=
  let dflt := if action ∈ OBJECT_MOVE_ACTIONS then DEFAULT_OBJECT_MOVE_AMOUNT
              else DEFAULT_AMOUNT
  is_in_range (p.amount.getOr dflt) MIN_AMOUNT MAX_AMOUNT DEFAULT_AMOUNT

/-- The validated `force` (controller.py lines 394, 413-414, 444-449). -/
def validated_force (p : RawParams) : ℚ :=
  is_in_range (p.force.getOr DEFAULT_FORCE) MIN_FORCE MAX_FORCE DEFAULT_FORCE

/-- Move-magnitude selection by action category (controller.py lines 385,
454-462): initialized to `MOVE_DISTANCE`, then overwritten by three
successive (non-exclusive, but disjoint-listed) `if`s. -/
def move_magnitude (action : String) (p : RawParams) : ℚ :=
  let m := MOVE_DISTANCE
  let m := if action ∈ FORCE_ACTIONS then validated_force p * MAX_FORCE else m
  let m := if action ∈ OBJECT_MOVE_ACTIONS then validated_amount action p else m
  if action ∈ MOVE_ACTIONS then MOVE_DISTANCE else m

/-- `_convert_y_image_coord_for_unity` (controller.py lines 181-185):
pixel-space Y flipped against screen height except at exactly zero. -/
def convert_y_image_coord_for_unity (screenHeight y : ℚ) : ℚ :=
  if y ≠ 0 then screenHeight - y else y

/-- The engine-ready payload built by `validate_and_convert_params`
(controller.py lines 483-491). -/
structure StepParams where
  objectId : Option String
  receptacleObjectId : Option String
  rotationY : ℚ
  horizon : ℚ
  moveMagnitude : ℚ
  objectImageCoordsX : ℚ
  objectImageCoordsY : ℚ
  receptacleObjectImageCoordsX : ℚ
  receptacleObjectImageCoordsY : ℚ
deriving DecidableEq

/-- `validate_and_convert_params` (controller.py lines 384-491).  The three
`generate_noise()` draws are passed in as the oracle values `nR`, `nH`, `nM`
(consumed in source order: rotation, horizon, magnitude); they are used only
when `enableNoise` is set. -/
def validate_and_convert_params (enableNoise : Bool) (nR nH nM : ℚ)
    (screenHeight : ℚ) (action : String) (p : RawParams) : StepParams :=
  let rotation := p.rotation.getD DEFAULT_ROTATION
  let horizon := p.horizon.getD DEFAULT_HORIZON
  let oX := p.objectImageCoordsX.getOr DEFAULT_IMG_COORD
  let oY := p.objectImageCoordsY.getOr DEFAULT_IMG_COORD
  let rX := p.receptacleObjectImageCoordsX.getOr DEFAULT_IMG_COORD
  let rY := p.receptacleObjectImageCoordsY.getOr DEFAULT_IMG_COORD
  let mag := move_magnitude action p
  let rotation := if enableNoise then rotation * (1 + nR) else rotation
  let horizon := if enableNoise then horizon * (1 + nH) else horizon
  let mag := if enableNoise then mag * (1 + nM) else mag
  { objectId := p.objectId
    receptacleObjectId := p.receptacleObjectId
    rotationY := rotation
    horizon := horizon
    moveMagnitude := mag
    objectImageCoordsX := oX
    objectImageCoordsY := convert_y_image_coord_for_unity screenHeight oY
    receptacleObjectImageCoordsX := rX
    receptacleObjectImageCoordsY := convert_y_image_coord_for_unity screenHeight rY }

/-! ## The thor variant's parameter validation
(`src/python_api/machine_common_sense/controller_ai2thor.py`, lines 372-507) -/

/-- `MAX_MOVE_DISTANCE = 0.5` (controller_ai2thor.py line 24). -/
def MAX_MOVE_DISTANCE : ℚ := 1/2

/-- `MAX_BABY_FORCE = 50.0` (controller_ai2thor.py line 93). -/
def MAX_BABY_FORCE : ℚ := 50

def MAX_HORIZON : ℚ := 180

def MIN_HORIZON : ℚ := -180

def DEFAULT_DIRECTION : ℚ := 0

/-- Raw parameters of a thor-variant `step` call: this variant guards every
numeric parameter (including rotation/horizon) with `Util.is_number`, and
takes 3-D direction vectors instead of image coordinates. -/
structure ThorRawParams where
  rotation : RawVal := .missing
  horizon : RawVal := .missing
  amount : RawVal := .missing
  force : RawVal := .missing
  objectDirectionX : RawVal := .missing
  objectDirectionY : RawVal := .missing
  objectDirectionZ : RawVal := .missing
  receptacleObjectDirectionX : RawVal := .missing
  receptacleObjectDirectionY : RawVal := .missing
  receptacleObjectDirectionZ : RawVal := .missing
  objectId : Option String := none
  receptacleObjectId : Option String := none
deriving DecidableEq

/-- Thor variant: validated `amount` (controller_ai2thor.py lines 376-381,
404-410, 454-459). -/
def thor_validated_amount (action : String) (p : ThorRawParams) : ℚ :=
  let dflt := if action ∈ OBJECT_MOVE_ACTIONS then DEFAULT_OBJECT_MOVE_AMOUNT
              else DEFAULT_AMOUNT
  is_in_range (p.amount.getOr dflt) MIN_AMOUNT MAX_AMOUNT DEFAULT_AMOUNT

/-- Thor variant: validated `force` (controller_ai2thor.py lines 382, 412-413,
460-465). -/
def thor_validated_force (p : ThorRawParams) : ℚ :=
  is_in_range (p.force.getOr DEFAULT_FORCE) MIN_FORCE MAX_FORCE DEFAULT_FORCE

/-- Thor variant: validated `horizon` (controller_ai2thor.py lines 401-402,
448-453). -/
def thor_validated_horizon (p : ThorRawParams) : ℚ :=
  is_in_range (p.horizon.getOr DEFAULT_HORIZON) MIN_HORIZON MAX_HORIZON DEFAULT_HORIZON

/-- Thor variant: move-magnitude selection (controller_ai2thor.py lines 373,
470-478): initialized to `MAX_MOVE_DISTANCE`; locomotion actions use
`amount * MAX_MOVE_DISTANCE`; force actions use `force * MAX_BABY_FORCE`. -/
def thor_move_magnitude (action : String) (p : ThorRawParams) : ℚ :=
  let m := MAX_MOVE_DISTANCE
  let m := if action ∈ FORCE_ACTIONS then thor_validated_force p * MAX_BABY_FORCE else m
  let m := if action ∈ OBJECT_MOVE_ACTIONS then thor_validated_amount action p else m
  if action ∈ MOVE_ACTIONS then thor_validated_amount action p * MAX_MOVE_DISTANCE else m

/-- Thor variant engine payload (controller_ai2thor.py lines 499-507). -/
structure ThorStepParams where
  objectId : Option String
  receptacleObjectId : Option String
  rotationY : ℚ
  horizon : ℚ
  moveMagnitude : ℚ
  objectDirectionX : ℚ
  objectDirectionY : ℚ
  objectDirectionZ : ℚ
  receptacleObjectDirectionX : ℚ
  receptacleObjectDirectionY : ℚ
  receptacleObjectDirectionZ : ℚ
deriving DecidableEq

/-- Thor variant `validate_and_convert_params` (controller_ai2thor.py lines
372-507).  No coordinate flip: direction components pass through. -/
def thor_validate_and_convert_params (enableNoise : Bool) (nR nH nM : ℚ)
    (action : String) (p : ThorRawParams) : ThorStepParams :=
  let rotation := p.rotation.getOr DEFAULT_ROTATION
  let horizon := thor_validated_horizon p
  let mag := thor_move_magnitude action p
  let rotation := if enableNoise then rotation * (1 + nR) else rotation
  let horizon := if enableNoise then horizon * (1 + nH) else horizon
  let mag := if enableNoise then mag * (1 + nM) else mag
  { objectId := p.objectId
    receptacleObjectId := p.receptacleObjectId
    rotationY := rotation
    horizon := horizon
    moveMagnitude := mag
    objectDirectionX := p.objectDirectionX.getOr DEFAULT_DIRECTION
    objectDirectionY := p.objectDirectionY.getOr DEFAULT_DIRECTION
    objectDirectionZ := p.objectDirectionZ.getOr DEFAULT_DIRECTION
    receptacleObjectDirectionX := p.receptacleObjectDirectionX.getOr DEFAULT_DIRECTION
    receptacleObjectDirectionY := p.receptacleObjectDirectionY.getOr DEFAULT_DIRECTION
    receptacleObjectDirectionZ := p.receptacleObjectDirectionZ.getOr DEFAULT_DIRECTION }

/-! ## Metadata tier filters -/

/-- Tier names from the ctrl variant's configuration (controller.py lines 138-144). -/
def CONFIG_METADATA_TIER_ORACLE : String := "oracle"

def CONFIG_METADATA_TIER_LEVEL_2 : String := "level2"

def CONFIG_METADATA_TIER_LEVEL_1 : String := "level1"

/-- Mode names from the thor variant's configuration (controller_ai2thor.py
lines 144-150). -/
def CONFIG_METADATA_MODE_FULL : String := "full"

def CONFIG_METADATA_MODE_NO_NAVIGATION : String := "no_navigation"

def CONFIG_METADATA_MODE_NO_VISION : String := "no_vision"

def CONFIG_METADATA_MODE_NONE : String := "none"

/-- A `target`/`target_1`/`target_2` entry of the goal's metadata mapping.
`image` is `none` when the Python dict has no `image` key, and `some v` when
the key is present with value `v` (`v = none` embeds Python's `None`).
`info` stands for the entry's remaining, untouched keys. -/
structure TargetMetadata where
  image : Option (Option ℕ)
  info : ℕ
deriving DecidableEq

/-- The goal-output metadata mapping: the three optional target entries the
filter inspects (each `none` when its key is absent). -/
structure GoalOutputMetadata where
  target : Option TargetMetadata
  target_1 : Option TargetMetadata
  target_2 : Option TargetMetadata
deriving DecidableEq

/-- A goal-output structure as passed to `restrict_goal_output_metadata`. -/
structure GoalOutput where
  category : String
  description : String
  metadata : GoalOutputMetadata
deriving DecidableEq

/-- One target entry of `restrict_goal_output_metadata`: when the entry and
its `image` key exist, the image value is overwritten with `None`
(controller.py lines 708-722). -/
def restrict_target_image (t : Option TargetMetadata) : Option TargetMetadata :=
  match t with
  | none => none
  | some tm => some { tm with image := tm.image.map (fun _ => none) }

/-- `restrict_goal_output_metadata` (controller.py lines 703-724): at tiers
level1/level2, blank the target-reveal images; other tiers pass through. -/
def restrict_goal_output_metadata (tier : String) (g : GoalOutput) : GoalOutput :=
  if tier = CONFIG_METADATA_TIER_LEVEL_1 ∨ tier = CONFIG_METADATA_TIER_LEVEL_2 then
    { g with metadata :=
        { target := restrict_target_image g.metadata.target
          target_1 := restrict_target_image g.metadata.target_1
          target_2 := restrict_target_image g.metadata.target_2 } }
  else g

/-- An interactive/structural object record as built by
`retrieve_object_output`; opaque values are tokens, optional ones embed
Python `None` as `none`. -/
structure ObjectMetadata where
  uuid : String
  color : Option ℕ
  dimensions : Option ℕ
  direction : Option ℕ
  distance : Option ℚ
  distance_in_steps : Option ℚ
  distance_in_world : Option ℚ
  held : Bool
  mass : ℚ
  material_list : List String
  position : Option ℕ
  rotation : Option ℕ
  shape : Option String
  texture_color_list : Option (List String)
  visible : Bool
deriving DecidableEq

/-- Thor variant `restrict_object_output_metadata` (controller_ai2thor.py
lines 741-768): `no_vision`/`none` blank the vision-derived fields;
`no_navigation`/`none` blank position and rotation. -/
def restrict_object_output_metadata (mode : String) (o : ObjectMetadata) : ObjectMetadata :=
  let o :=
    if mode = CONFIG_METADATA_MODE_NO_VISION ∨ mode = CONFIG_METADATA_MODE_NONE then
      { o with color := none, dimensions := none, direction := none, distance := none,
               distance_in_steps := none, distance_in_world := none, shape := none,
               texture_color_list := none }
    else o
  if mode = CONFIG_METADATA_MODE_NO_NAVIGATION ∨ mode = CONFIG_METADATA_MODE_NONE then
    { o with position := none, rotation := none }
  else o

/-- The per-step observation snapshot (`StepMetadata`), restricted to the
fields the session-protocol claims inspect: the permitted-action list, the
three buffer lists (opaque tokens), habituation trial, head tilt, agent
position/rotation (opaque token / angle), and the step number.  The
remaining source fields (camera parameters, pose, return status, reward,
object lists) are engine passthroughs untouched by the modelled claims. -/
structure StepMetadata where
  action_list : List String
  depth_data_list : List ℕ
  image_list : List ℕ
  object_mask_list : List ℕ
  habituation_trial : Option ℕ
  head_tilt : ℚ
  position : Option ℕ
  rotation : Option ℚ
  step_number : ℕ
deriving DecidableEq

/-- `restrict_step_output_metadata` (controller.py lines 726-738): level1
blanks the object-mask list; level1 and level2 blank agent position and
rotation. -/
def restrict_step_output_metadata (tier : String) (s : StepMetadata) : StepMetadata :=
  let s := if tier = CONFIG_METADATA_TIER_LEVEL_1 then { s with object_mask_list := [] }
           else s
  if tier = CONFIG_METADATA_TIER_LEVEL_1 ∨ tier = CONFIG_METADATA_TIER_LEVEL_2 then
    { s with position := none, rotation := none }
  else s

/-! ## Goal metadata and the permitted-action lookup -/

/-- Modelled from the spec: the per-scene goal configuration (`GoalMetadata`
is not under `src/`; its fields and defaults are visible in
`retrieve_goal`, controller.py lines 751-772, and in the repository's
`test_step_metadata.py`).  Only the fields the session protocol reads are
kept. -/
structure GoalMetadata where
  action_list : Option (List (List String)) := none
  habituation_total : ℕ := 0
  last_preview_phase_step : ℕ := 0
  last_step : Option ℕ := none
deriving DecidableEq

/-- `retrieve_action_list` (controller.py lines 740-749): with a goal that
declares a per-step `action_list`, the preview window forces `['Pass']`, then
the configured list at the adjusted index applies when present and
non-empty; in every other case the full `ACTION_LIST` is returned. -/
def retrieve_action_list (goal : Option GoalMetadata) (step_number : ℕ) : List String :=
  match goal with
  | none => ACTION_LIST
  | some g =>
    match g.action_list with
    | none => ACTION_LIST
    | some alist =>
      if step_number < g.last_preview_phase_step then ["Pass"]
      else
        match alist.get? (step_number - g.last_preview_phase_step) with
        | some l => if 0 < l.length then l else ACTION_LIST
        | none => ACTION_LIST

/-- `mcs_action_to_ai2thor_action` (controller.py lines 670-689): the three
documented 1:1 renames; every other action passes through. -/
def mcs_action_to_ai2thor_action (action : String) : String :=
  if action = "CloseObject" then "MCSCloseObject"
  else if action = "DropObject" then "DropHandObject"
  else if action = "OpenObject" then "MCSOpenObject"
  else action

/-! ## The session state machine (`Controller` of controller.py)

The external AI2-THOR engine is an oracle: each `step` call takes the
engine's response event as an argument.  A response carries one opaque token
per rendered sub-event frame; `save_images` (controller.py lines 943-997)
appends one image per sub-event, and one depth / object-mask buffer per
sub-event exactly when the corresponding rendering flag is on. -/

structure EngineEvent where
  events : List ℕ := [0]
  agentPosition : ℕ := 0
  agentRotationY : ℚ := 0
  cameraHorizon : ℚ := 0
deriving DecidableEq

/-- `save_images` (controller.py lines 943-997), reduced to buffer
bookkeeping: the debug/S3 side effects live outside the core.  Returns
(image list, depth list, object-mask list). -/
def save_images (depthMasks objectMasks : Bool) (e : EngineEvent) :
    List ℕ × List ℕ × List ℕ :=
  (e.events, if depthMasks then e.events else [], if objectMasks then e.events else [])

/-- The per-instance configuration captured at controller construction
(`_on_init`, controller.py lines 209-260). -/
structure ControllerConfig where
  enable_noise : Bool := false
  metadata_tier : String := ""
  depth_masks : Bool := false
  object_masks : Bool := false
  screen_height : ℚ := 400
deriving DecidableEq

/-- Modelled from the spec: one per-step history record (`SceneHistory` is
not under `src/`; its constructor arguments are visible at controller.py
lines 576-581 and its annotation fields at lines 622-626).  The snapshot
embedded in the record is stripped of the heavy buffer lists, so only its
step number is kept here. -/
structure SceneHistory where
  step : ℕ
  action : String
  params : StepParams
  classification : Option String := none
  confidence : Option ℚ := none
  violations_xy_list : Option ℕ := none
  internal_state : Option ℕ := none
  output_step_number : ℕ
deriving DecidableEq

/-- The controller's mutable per-scene state.  `history_written` is the
sequence of records handed to the `HistoryWriter` (modelled from the spec as
an append-only per-step record log, since `HistoryWriter` is not under
`src/`); `history_item` is the single pending (unflushed) record. -/
structure ControllerState where
  config : ControllerConfig
  goal : GoalMetadata
  step_number : ℕ
  habituation_trial : ℕ
  history_item : Option SceneHistory
  history_written : List SceneHistory
  head_tilt : ℚ
deriving DecidableEq

/-- The flush at the top of `step` (controller.py lines 513-514): whenever
the step counter is positive, the pending record is handed to the writer.
The source does not clear `__history_item` here. -/
def flush_pending (st : ControllerState) : ControllerState :=
  if 0 < st.step_number then
    { st with history_written := st.history_written ++ st.history_item.toList }
  else st

/-- `wrap_output` (controller.py lines 999-1064), reduced to the snapshot
fields the claims inspect: builds the snapshot from the engine event and the
current state, then applies the tier filter.  `habituation_trial` is the
counter while `habituation_total >= trial`, else `None` (lines 1030-1034). -/
def wrap_output (st : ControllerState) (e : EngineEvent) : StepMetadata :=
  restrict_step_output_metadata st.config.metadata_tier
    { action_list := retrieve_action_list (some st.goal) st.step_number
      depth_data_list := (save_images st.config.depth_masks st.config.object_masks e).2.1
      image_list := (save_images st.config.depth_masks st.config.object_masks e).1
      object_mask_list := (save_images st.config.depth_masks st.config.object_masks e).2.2
      habituation_trial :=
        if st.habituation_trial ≤ st.goal.habituation_total then some st.habituation_trial
        else none
      head_tilt := e.cameraHorizon
      position := some e.agentPosition
      rotation := some e.agentRotationY
      step_number := st.step_number }

/-- The accepted-action tail of `step` (controller.py lines 538-583):
increment the counter, validate parameters, translate the action, bump the
habituation counter on the boundary marker, wrap the engine output, and make
the stripped record the new pending history item. -/
def step_accepted (st : ControllerState) (e : EngineEvent) (nR nH nM : ℚ)
    (action : String) (p : RawParams) : Option StepMetadata × ControllerState :=
  let stepNum := st.step_number + 1
  let params := validate_and_convert_params st.config.enable_noise nR nH nM
    st.config.screen_height action p
  let thorAction := mcs_action_to_ai2thor_action action
  let habit := if thorAction = "EndHabituation" then st.habituation_trial + 1
               else st.habituation_trial
  let st2 := { st with step_number := stepNum, habituation_trial := habit }
  let output := wrap_output st2 e
  let item : SceneHistory :=
    { step := stepNum, action := thorAction, params := params,
      output_step_number := output.step_number }
  (some output, { st2 with history_item := some item, head_tilt := output.head_tilt })

/-- `step` (controller.py lines 494-583): flush the pending record, refuse
with no snapshot when the step counter sits at `last_step`, refuse when the
action is outside the permitted list for the current step, otherwise run the
accepted tail.  Comma-packed action strings (`Util.input_to_action_and_params`)
are outside this embedding: actions arrive already parsed. -/
def Controller.step (st : ControllerState) (e : EngineEvent) (nR nH nM : ℚ)
    (action : String) (p : RawParams) : Option StepMetadata × ControllerState :=
  if (flush_pending st).goal.last_step = some (flush_pending st).step_number then
    (none, flush_pending st)
  else if action ∈ retrieve_action_list (some (flush_pending st).goal)
      (flush_pending st).step_number then
    step_accepted (flush_pending st) e nR nH nM action p
  else (none, flush_pending st)

/-- `make_step_prediction` (controller.py lines 585-636), without the S3
heat-map upload: when a record is pending, attach the client's annotations
to it. -/
def make_step_prediction (st : ControllerState) (choice : Option String)
    (confidence : Option ℚ) (violations : Option ℕ) (internal : Option ℕ) :
    ControllerState :=
  match st.history_item with
  | none => st
  | some item =>
    let item2 :=
      { item with classification := choice, confidence := confidence,
                  violations_xy_list := violations, internal_state := internal }
    { st with history_item := some item2 }

/-- `end_scene` (controller.py lines 289-305): hand the pending record to the
writer, then write the history file with the choice and confidence
(`HistoryWriter.write_history_file` is not under `src/`; modelled from the
spec as sealing the per-scene target with the final record list). -/
def end_scene (st : ControllerState) (choice : Option String) (confidence : ℚ) :
    List SceneHistory × Option String × ℚ :=
  (st.history_written ++ st.history_item.toList, choice, confidence)

/-- The state after `start_scene`'s resets (controller.py lines 324-332) on a
fresh controller: step counter 0, habituation trial 1, a new (empty) history
target, no pending record. -/
def initial_state (cfg : ControllerConfig) (goal : GoalMetadata) : ControllerState :=
  { config := cfg, goal := goal, step_number := 0, habituation_trial := 1,
    history_item := none, history_written := [], head_tilt := 0 }

/-- The preview-phase loop of `start_scene` (controller.py lines 358-363):
`n` calls of `self.step('Pass')`, collecting each returned snapshot.  The
source would raise on a `None` return inside the loop (it dereferences
`output.image_list`); that failure is embedded as `none`. -/
def preview_steps (eng : ℕ → EngineEvent) : ℕ → ℕ → ControllerState →
    Option (List StepMetadata × ControllerState)
  | 0, _, st => some ([], st)
  | n + 1, i, st =>
    match Controller.step st (eng i) 0 0 0 "Pass" {} with
    | (none, _) => none
    | (some out, st2) =>
      match preview_steps eng n (i + 1) st2 with
      | none => none
      | some (outs, st3) => some (out :: outs, st3)

/-- `start_scene` (controller.py lines 307-374) on a fresh controller: reset
the counters, wrap the engine's `Initialize` response, and, unless skipped,
auto-run the preview phase, concatenating every intermediate image/depth/mask
buffer onto the single returned snapshot (which is the final preview step's
snapshot when a preview phase ran). -/
def start_scene (cfg : ControllerConfig) (goal : GoalMetadata) (skipPreview : Bool)
    (initE : EngineEvent) (eng : ℕ → EngineEvent) :
    Option (StepMetadata × ControllerState) :=
  let st0 := initial_state cfg goal
  let out0 := wrap_output st0 initE
  if skipPreview ∨ goal.last_preview_phase_step = 0 then some (out0, st0)
  else
    match preview_steps eng goal.last_preview_phase_step 0 st0 with
    | none => none
    | some (outs, st1) =>
      let all := out0 :: outs
      some ({ outs.getLastD out0 with
                image_list := (all.map (fun o => o.image_list)).flatten
                depth_data_list := (all.map (fun o => o.depth_data_list)).flatten
                object_mask_list := (all.map (fun o => o.object_mask_list)).flatten },
            st1)

/-- One client `step` call: the action, its raw parameters, the engine's
response, and the three noise draws the call would consume. -/
structure StepCall where
  engine : EngineEvent := {}
  nR : ℚ := 0
  nH : ℚ := 0
  nM : ℚ := 0
  action : String
  params : RawParams := {}

/-- A sequence of client `step` calls, returning every call's result. -/
def step_many (st : ControllerState) : List StepCall →
    List (Option StepMetadata) × ControllerState
  | [] => ([], st)
  | c :: cs =>
    let r := Controller.step st c.engine c.nR c.nH c.nM c.action c.params
    let rest := step_many r.2 cs
    (r.1 :: rest.1, rest.2)

/-! ## Helper lemmas about the state machine -/

lemma flush_pending_config (st : ControllerState) : (flush_pending st).config = st.config := by
  unfold flush_pending; split <;> rfl

lemma flush_pending_goal (st : ControllerState) : (flush_pending st).goal = st.goal := by
  unfold flush_pending; split <;> rfl

lemma flush_pending_step_number (st : ControllerState) :
    (flush_pending st).step_number = st.step_number := by
  unfold flush_pending; split <;> rfl

lemma flush_pending_habituation (st : ControllerState) :
    (flush_pending st).habituation_trial = st.habituation_trial := by
  unfold flush_pending; split <;> rfl

lemma flush_pending_history_item (st : ControllerState) :
    (flush_pending st).history_item = st.history_item := by
  unfold flush_pending; split <;> rfl

lemma flush_pending_written (st : ControllerState) :
    (flush_pending st).history_written =
      st.history_written ++ (if 0 < st.step_number then st.history_item.toList else []) := by
  unfold flush_pending; split <;> simp_all

/-- A `step` call rejected by the budget check or by the permitted-action
check returns no snapshot and leaves the state unchanged except for the
initial flush. -/
lemma step_rejected (st : ControllerState) (e : EngineEvent) (nR nH nM : ℚ)
    (a : String) (p : RawParams)
    (h : st.goal.last_step = some st.step_number ∨
         a ∉ retrieve_action_list (some st.goal) st.step_number) :
    Controller.step st e nR nH nM a p = (none, flush_pending st) := by
  unfold Controller.step
  rcases h with h | h
  · rw [if_pos]
    rw [flush_pending_goal, flush_pending_step_number]
    exact h
  · split
    · rfl
    · rw [if_neg]
      rw [flush_pending_goal, flush_pending_step_number]
      exact h

/-- A `step` call that passes both checks runs the accepted tail on the
flushed state. -/
lemma step_accepted_run (st : ControllerState) (e : EngineEvent) (nR nH nM : ℚ)
    (a : String) (p : RawParams)
    (hb : st.goal.last_step ≠ some st.step_number)
    (ha : a ∈ retrieve_action_list (some st.goal) st.step_number) :
    Controller.step st e nR nH nM a p = step_accepted (flush_pending st) e nR nH nM a p := by
  unfold Controller.step
  rw [if_neg, if_pos]
  · rw [flush_pending_goal, flush_pending_step_number]; exact ha
  · rw [flush_pending_goal, flush_pending_step_number]; exact hb

lemma step_accepted_fst (st : ControllerState) (e : EngineEvent) (nR nH nM : ℚ)
    (a : String) (p : RawParams) :
    (step_accepted st e nR nH nM a p).1 =
      some (wrap_output
        { st with step_number := st.step_number + 1,
                  habituation_trial :=
                    if mcs_action_to_ai2thor_action a = "EndHabituation" then
                      st.habituation_trial + 1
                    else st.habituation_trial } e) := rfl

lemma step_accepted_step_number (st : ControllerState) (e : EngineEvent) (nR nH nM : ℚ)
    (a : String) (p : RawParams) :
    (step_accepted st e nR nH nM a p).2.step_number = st.step_number + 1 := rfl

lemma step_accepted_habituation (st : ControllerState) (e : EngineEvent) (nR nH nM : ℚ)
    (a : String) (p : RawParams) :
    (step_accepted st e nR nH nM a p).2.habituation_trial =
      if mcs_action_to_ai2thor_action a = "EndHabituation" then st.habituation_trial + 1
      else st.habituation_trial := rfl

lemma step_accepted_written (st : ControllerState) (e : EngineEvent) (nR nH nM : ℚ)
    (a : String) (p : RawParams) :
    (step_accepted st e nR nH nM a p).2.history_written = st.history_written := rfl

lemma step_accepted_goal (st : ControllerState) (e : EngineEvent) (nR nH nM : ℚ)
    (a : String) (p : RawParams) :
    (step_accepted st e nR nH nM a p).2.goal = st.goal := rfl

lemma step_accepted_item (st : ControllerState) (e : EngineEvent) (nR nH nM : ℚ)
    (a : String) (p : RawParams) :
    (step_accepted st e nR nH nM a p).2.history_item =
      some { step := st.step_number + 1,
             action := mcs_action_to_ai2thor_action a,
             params := validate_and_convert_params st.config.enable_noise nR nH nM
               st.config.screen_height a p,
             output_step_number :=
               (wrap_output
                 { st with step_number := st.step_number + 1,
                           habituation_trial :=
                             if mcs_action_to_ai2thor_action a = "EndHabituation" then
                               st.habituation_trial + 1
                             else st.habituation_trial } e).step_number } := rfl

/-- Inversion: a call that returned a snapshot passed both checks. -/
lemma step_some_inv (st : ControllerState) (e : EngineEvent) (nR nH nM : ℚ)
    (a : String) (p : RawParams) (out : StepMetadata)
    (h : (Controller.step st e nR nH nM a p).1 = some out) :
    st.goal.last_step ≠ some st.step_number ∧
    a ∈ retrieve_action_list (some st.goal) st.step_number := by
  by_cases hb : st.goal.last_step = some st.step_number
  · rw [step_rejected st e nR nH nM a p (Or.inl hb)] at h
    exact absurd h (by simp)
  · by_cases ha : a ∈ retrieve_action_list (some st.goal) st.step_number
    · exact ⟨hb, ha⟩
    · rw [step_rejected st e nR nH nM a p (Or.inr ha)] at h
      exact absurd h (by simp)

/-- The final persisted history of any `step` call is the flushed one: the
call itself never appends the new record. -/
lemma step_written (st : ControllerState) (e : EngineEvent) (nR nH nM : ℚ)
    (a : String) (p : RawParams) :
    (Controller.step st e nR nH nM a p).2.history_written =
      st.history_written ++ (if 0 < st.step_number then st.history_item.toList else []) := by
  by_cases hb : st.goal.last_step = some st.step_number
  · rw [step_rejected st e nR nH nM a p (Or.inl hb)]
    exact flush_pending_written st
  · by_cases ha : a ∈ retrieve_action_list (some st.goal) st.step_number
    · rw [step_accepted_run st e nR nH nM a p hb ha, step_accepted_written,
        flush_pending_written]
    · rw [step_rejected st e nR nH nM a p (Or.inr ha)]
      exact flush_pending_written st

lemma make_step_prediction_written (st : ControllerState) (choice : Option String)
    (confidence : Option ℚ) (v i : Option ℕ) :
    (make_step_prediction st choice confidence v i).history_written = st.history_written := by
  unfold make_step_prediction
  cases st.history_item <;> rfl

lemma make_step_prediction_step_number (st : ControllerState) (choice : Option String)
    (confidence : Option ℚ) (v i : Option ℕ) :
    (make_step_prediction st choice confidence v i).step_number = st.step_number := by
  unfold make_step_prediction
  cases st.history_item <;> rfl

lemma make_step_prediction_goal (st : ControllerState) (choice : Option String)
    (confidence : Option ℚ) (v i : Option ℕ) :
    (make_step_prediction st choice confidence v i).goal = st.goal := by
  unfold make_step_prediction
  cases st.history_item <;> rfl

/-! ## Claim C1 -/

/-- C1: in an active scene whose goal declares a `last_step`, once the step
counter has reached `last_step`, every subsequent `step()` call — for any
action, parameters, and engine behaviour — returns no snapshot and leaves
the step counter (and the goal) unchanged, for arbitrarily many further
calls; and `end_scene` remains legal throughout (it is defined on the
resulting state and seals the history with the given choice/confidence). -/
theorem last_step_exhausts_step_calls (st : ControllerState) (L : ℕ)
    (hL : st.goal.last_step = some L) (hs : st.step_number = L)
    (calls : List StepCall) :
    (step_many st calls).1.all Option.isNone = true ∧
    (step_many st calls).2.step_number = L ∧
    (step_many st calls).2.goal = st.goal ∧
    (∀ choice conf, end_scene (step_many st calls).2 choice conf =
      ((step_many st calls).2.history_written ++
        (step_many st calls).2.history_item.toList, choice, conf)) := by
  induction calls generalizing st with
  | nil =>
    exact ⟨rfl, hs, rfl, fun choice conf => rfl⟩
  | cons c cs ih =>
    have hbudget : st.goal.last_step = some st.step_number := by rw [hs]; exact hL
    have hstep := step_rejected st c.engine c.nR c.nH c.nM c.action c.params (Or.inl hbudget)
    have hgoal : (flush_pending st).goal = st.goal := flush_pending_goal st
    have hnum : (flush_pending st).step_number = L := by
      rw [flush_pending_step_number]; exact hs
    have ihr := ih (flush_pending st) (by rw [hgoal]; exact hL) hnum
    unfold step_many
    rw [hstep]
    refine ⟨?_, ihr.2.1, by rw [ihr.2.2.1, hgoal], ihr.2.2.2⟩
    simp only [List.all_cons, Option.isNone_none, Bool.true_and]
    exact ihr.1

/-- Witness for C1: a concrete scene with `last_step = 2` whose counter sits
at 2; two further calls (one of them `EndHabituation` with parameters)
return nothing and the counter stays at 2. -/
def c1_state : ControllerState :=
  { config := {}, goal := { last_step := some 2 }, step_number := 2,
    habituation_trial := 1, history_item := none, history_written := [],
    head_tilt := 0 }

def c1_calls : List StepCall :=
  [{ action := "MoveAhead" }, { action := "EndHabituation", params := { force := .num 3 } }]

theorem last_step_exhausts_step_calls_witness :
    (step_many c1_state c1_calls).1.all Option.isNone = true ∧
    (step_many c1_state c1_calls).2.step_number = 2 := by
  have h := last_step_exhausts_step_calls c1_state 2 rfl rfl c1_calls
  exact ⟨h.1, h.2.1⟩

/-! ## Claim C2 -/

/-- A scene state one accepted step in, with a pending (unflushed) history
record, whose goal permits only `Pass` at step 1. -/
def c2_state : ControllerState :=
  { config := {}, goal := { action_list := some [["Pass"], ["Pass"]] }, step_number := 1,
    habituation_trial := 1,
    history_item := some
      { step := 1, action := "Pass",
        params := validate_and_convert_params false 0 0 0 400 "Pass" {},
        output_step_number := 1 },
    history_written := [], head_tilt := 0 }

/-- C2 counterexample: the claim says a `step` call with a non-permitted
action leaves the persisted history unaffected; but at a positive step
counter the rejected call still hands the pending previous-step record to
the history writer (the flush at controller.py lines 513-514 precedes the
permitted-action check), so the persisted history grows. -/
theorem invalid_action_touches_history_counterexample :
    (Controller.step c2_state {} 0 0 0 "PickupObject" {}).2.history_written.length ≠
      c2_state.history_written.length := by
  decide

/-- C2 (amended): a `step` call whose action is not in the permitted list
for the current step returns no snapshot, leaves the step counter and the
pending record unchanged, and its only effect on persisted history is the
initial flush of the pending previous-step record (which happens on every
call at a positive step counter); when the step counter is 0 — in
particular for `step('PickupObject')` during the preview phase with
permitted list `['Pass']` — the state, persisted history included, is
entirely untouched. -/
theorem invalid_action_step_rejected (st : ControllerState) (e : EngineEvent)
    (nR nH nM : ℚ) (a : String) (p : RawParams)
    (ha : a ∉ retrieve_action_list (some st.goal) st.step_number) :
    (Controller.step st e nR nH nM a p).1 = none ∧
    (Controller.step st e nR nH nM a p).2.step_number = st.step_number ∧
    (Controller.step st e nR nH nM a p).2.history_item = st.history_item ∧
    (Controller.step st e nR nH nM a p).2.history_written =
      st.history_written ++ (if 0 < st.step_number then st.history_item.toList else []) ∧
    (st.step_number = 0 → (Controller.step st e nR nH nM a p).2 = st) := by
  have hstep := step_rejected st e nR nH nM a p (Or.inr ha)
  rw [hstep]
  refine ⟨rfl, flush_pending_step_number st, flush_pending_history_item st,
    flush_pending_written st, fun h0 => ?_⟩
  unfold flush_pending
  rw [if_neg]
  omega

/-- Witness for C2 (and the claim's concrete scenario): inside the preview
phase (step counter 0, permitted list `['Pass']`), `step('PickupObject')`
returns nothing and the state — persisted history included — is unchanged. -/
def c2_preview_state : ControllerState :=
  { config := {}, goal := { action_list := some [["MoveAhead"]], last_preview_phase_step := 1 },
    step_number := 0, habituation_trial := 1, history_item := none,
    history_written := [], head_tilt := 0 }

theorem invalid_action_step_rejected_witness :
    retrieve_action_list (some c2_preview_state.goal) c2_preview_state.step_number = ["Pass"] ∧
    (Controller.step c2_preview_state {} 0 0 0 "PickupObject" {}).1 = none ∧
    (Controller.step c2_preview_state {} 0 0 0 "PickupObject" {}).2 = c2_preview_state := by
  have h := invalid_action_step_rejected c2_preview_state {} 0 0 0 "PickupObject" {} (by decide)
  exact ⟨by decide, h.1, h.2.2.2.2 rfl⟩

/-! ## Claim C3 -/

/-- C3 counterexample: the claim says the lookup returns `['Pass']` whenever
the step index is inside the declared preview window; but a goal whose
`action_list` is absent (`None`) falls straight through to the full
`ACTION_LIST` even inside its preview window (the preview check at
controller.py line 742 sits inside the `action_list is not None` branch). -/
theorem preview_pass_counterexample :
    retrieve_action_list
      (some { action_list := none, last_preview_phase_step := 1 }) 0 ≠ ["Pass"] := by
  decide

/-- C3 (amended): `retrieve_action_list` is a pure function of the goal and
step index; when the goal declares a per-step `action_list`, it returns
`['Pass']` inside the preview window, otherwise the configured list at the
adjusted index when that list is present and non-empty, else the full
`ACTION_LIST`; when the goal is absent or declares no `action_list`, it
returns the full `ACTION_LIST` even inside the preview window; and the
result is never empty. -/
theorem retrieve_action_list_characterization :
    (∀ (g : GoalMetadata) (s : ℕ) (alist : List (List String)),
      g.action_list = some alist →
      (s < g.last_preview_phase_step → retrieve_action_list (some g) s = ["Pass"]) ∧
      (g.last_preview_phase_step ≤ s →
        retrieve_action_list (some g) s =
          match alist.get? (s - g.last_preview_phase_step) with
          | some l => if 0 < l.length then l else ACTION_LIST
          | none => ACTION_LIST)) ∧
    (∀ (g : GoalMetadata), g.action_list = none →
      ∀ s, retrieve_action_list (some g) s = ACTION_LIST) ∧
    (∀ s, retrieve_action_list none s = ACTION_LIST) ∧
    (∀ (goal : Option GoalMetadata) (s : ℕ), retrieve_action_list goal s ≠ []) := by
  have hsome : ∀ (g : GoalMetadata) (s : ℕ),
      retrieve_action_list (some g) s =
        match g.action_list with
        | none => ACTION_LIST
        | some alist =>
          if s < g.last_preview_phase_step then ["Pass"]
          else
            match alist.get? (s - g.last_preview_phase_step) with
            | some l => if 0 < l.length then l else ACTION_LIST
            | none => ACTION_LIST := fun g s => rfl
  refine ⟨?_, ?_, fun s => rfl, ?_⟩
  · intro g s alist halist
    constructor
    · intro hlt
      rw [hsome, halist]
      simp [hlt]
    · intro hge
      rw [hsome, halist]
      simp only [if_neg (by omega : ¬ s < g.last_preview_phase_step)]
  · intro g hnone s
    rw [hsome, hnone]
  · intro goal s
    rcases goal with _ | g
    · show ACTION_LIST ≠ []
      decide
    · rw [hsome]
      cases halist : g.action_list with
      | none =>
        show ACTION_LIST ≠ []
        decide
      | some alist =>
        dsimp only
        split
        · decide
        · cases hget : alist.get? (s - g.last_preview_phase_step) with
          | none =>
            show ACTION_LIST ≠ []
            decide
          | some l =>
            dsimp only
            split
            · next hlen => exact List.length_pos.mp hlen
            · decide

/-- Witness for C3: concrete lookups exercising every branch — preview
window, configured non-empty list, absent `action_list`, absent goal, and
non-emptiness for a configured-but-empty list. -/
theorem retrieve_action_list_characterization_witness :
    retrieve_action_list
      (some { action_list := some [["MoveAhead"]], last_preview_phase_step := 2 }) 1 = ["Pass"] ∧
    retrieve_action_list
      (some { action_list := some [["MoveAhead"]], last_preview_phase_step := 2 }) 2 =
        ["MoveAhead"] ∧
    retrieve_action_list (some { action_list := none }) 7 = ACTION_LIST ∧
    retrieve_action_list none 3 = ACTION_LIST ∧
    retrieve_action_list (some { action_list := some [[]] }) 0 ≠ [] := by
  have h := retrieve_action_list_characterization
  refine ⟨(h.1 _ 1 _ rfl).1 (by decide), ?_, h.2.1 _ rfl 7, h.2.2.1 3, h.2.2.2 _ 0⟩
  have h2 := (h.1 ({ action_list := some [["MoveAhead"]], last_preview_phase_step := 2 } :
    GoalMetadata) 2 _ rfl).2 (by decide)
  simpa using h2

/-! ## Claim C4 -/

/-- The C4 scenario: a goal with `last_preview_phase_step = 2` and no
explicit per-step action list, on a controller with depth and object masks
enabled; each engine step yields exactly one buffer per list. -/
def c4_goal : GoalMetadata := { last_preview_phase_step := 2 }

def c4_config : ControllerConfig := { depth_masks := true, object_masks := true }

/-- The engine oracle for the scenario: every response carries one sub-event
(one frame). -/
def c4_engine : ℕ → EngineEvent := fun i => { events := [i + 1] }

def c4_run : Option (StepMetadata × ControllerState) :=
  start_scene c4_config c4_goal false { events := [0] } c4_engine

/-- C4 counterexample: the claim says the snapshot returned by `start_scene`
has step number 0; in the code the returned snapshot is the final preview
step's snapshot, whose step number is `last_preview_phase_step` (= 2 here),
because the two auto-executed `Pass` steps increment the counter
(controller.py line 538) and `wrap_output` records it (line 1044). -/
theorem start_scene_step_number_counterexample :
    c4_run.map (fun r => r.1.step_number) ≠ some 0 := by
  decide

/-- C4 (amended): in the scenario (preview length 2, no per-step action
list, one buffer per engine step) `start_scene` returns a single snapshot
whose image/depth/mask lists are the concatenation of the buffers of the
`Initialize` step and the 2 auto-executed `Pass` preview steps (length 3
each), and whose step number is 2 (= `last_preview_phase_step`); the first
`step('MoveAhead')` call after that advances the step number to 3. -/
theorem start_scene_preview_concatenation :
    c4_run.map (fun r =>
      (r.1.image_list.length, r.1.depth_data_list.length,
       r.1.object_mask_list.length, r.1.step_number)) = some (3, 3, 3, 2) ∧
    (c4_run.bind (fun r => (Controller.step r.2 {} 0 0 0 "MoveAhead" {}).1)).map
      (fun o => o.step_number) = some 3 := by
  constructor
  · decide
  · decide

/-- When the fallback default lies in the closed range, the result of the
range check lies in the closed range. -/
lemma is_in_range_bounds (v lo hi d : ℚ) (hd : lo ≤ d ∧ d ≤ hi) :
    lo ≤ is_in_range v lo hi d ∧ is_in_range v lo hi d ≤ hi := by
  unfold is_in_range
  split
  · next hin => exact hin
  · exact hd

/-! ## Claim C5 -/

/-- C5: every validated `amount`/`force` value lies in the closed interval
[0,1] (= [`MIN_AMOUNT`,`MAX_AMOUNT`] / [`MIN_FORCE`,`MAX_FORCE`]) before any
noise is applied, even for raw inputs outside that range; with noise
enabled, rotation, horizon, and the computed move-magnitude are each
multiplied by `(1 + noise)` with an independent draw (`nR`, `nH`, `nM`) from
the fixed interval [`NOISE_LO`,`NOISE_HI`], symmetric around zero, applied
after clamping and never re-clamped — and a draw inside the interval can
push the final magnitude outside the documented range. -/
theorem validated_range_and_multiplicative_noise :
    (∀ action p, MIN_AMOUNT ≤ validated_amount action p ∧
       validated_amount action p ≤ MAX_AMOUNT) ∧
    (∀ p, MIN_FORCE ≤ validated_force p ∧ validated_force p ≤ MAX_FORCE) ∧
    (∀ nR nH nM h action p,
      (validate_and_convert_params true nR nH nM h action p).rotationY =
        p.rotation.getD DEFAULT_ROTATION * (1 + nR) ∧
      (validate_and_convert_params true nR nH nM h action p).horizon =
        p.horizon.getD DEFAULT_HORIZON * (1 + nH) ∧
      (validate_and_convert_params true nR nH nM h action p).moveMagnitude =
        move_magnitude action p * (1 + nM)) ∧
    NOISE_LO = -NOISE_HI ∧ NOISE_LO < 0 ∧ (0 : ℚ) < NOISE_HI ∧
    (∃ action p n, NOISE_LO ≤ n ∧ n ≤ NOISE_HI ∧
      MAX_AMOUNT <
        (validate_and_convert_params true 0 0 n SCREEN_HEIGHT_DEFAULT action p).moveMagnitude) := by
  refine ⟨?_, ?_, fun nR nH nM h action p => ⟨rfl, rfl, rfl⟩, by norm_num [NOISE_LO, NOISE_HI],
    by norm_num [NOISE_LO], by norm_num [NOISE_HI], ?_⟩
  · intro action p
    unfold validated_amount
    exact is_in_range_bounds _ _ _ _ (by norm_num [MIN_AMOUNT, MAX_AMOUNT, DEFAULT_AMOUNT])
  · intro p
    unfold validated_force
    exact is_in_range_bounds _ _ _ _ (by norm_num [MIN_FORCE, MAX_FORCE, DEFAULT_FORCE])
  · refine ⟨"ThrowObject", { force := .num 1 }, 1/2, by norm_num [NOISE_LO],
      by norm_num [NOISE_HI], ?_⟩
    show MAX_AMOUNT <
      (if "ThrowObject" ∈ MOVE_ACTIONS then MOVE_DISTANCE
       else if "ThrowObject" ∈ OBJECT_MOVE_ACTIONS then
         validated_amount "ThrowObject" { force := .num 1 }
       else if "ThrowObject" ∈ FORCE_ACTIONS then
         validated_force { force := .num 1 } * MAX_FORCE
       else MOVE_DISTANCE) * (1 + 1/2)
    simp [FORCE_ACTIONS, OBJECT_MOVE_ACTIONS, MOVE_ACTIONS, validated_force, is_in_range,
      RawVal.getOr, MIN_FORCE, MAX_FORCE, MAX_AMOUNT]

/-! ## Claim C6 -/

/-- C6: `validate_and_convert_params` derives the move-magnitude by action
category, in both controller variants: force actions scale the validated
force fraction by the maximum-force constant (`MAX_FORCE` here, with final
source value 1, and `MAX_BABY_FORCE` = 50 in the thor variant); object-move
actions take the validated amount directly; locomotion actions use the fixed
per-step distance `MOVE_DISTANCE` (ctrl) or the validated amount scaled by
`MAX_MOVE_DISTANCE` (thor), clamped before noise; every other action gets
the default magnitude (the initializer: `MOVE_DISTANCE` resp.
`MAX_MOVE_DISTANCE`). -/
theorem move_magnitude_by_category (a : String) (p : RawParams) (q : ThorRawParams)
    (h : ℚ) :
    ((validate_and_convert_params false 0 0 0 h a p).moveMagnitude = move_magnitude a p) ∧
    ((thor_validate_and_convert_params false 0 0 0 a q).moveMagnitude =
      thor_move_magnitude a q) ∧
    (a ∈ FORCE_ACTIONS →
      move_magnitude a p = validated_force p * MAX_FORCE ∧
      thor_move_magnitude a q = thor_validated_force q * MAX_BABY_FORCE) ∧
    (a ∈ OBJECT_MOVE_ACTIONS →
      move_magnitude a p = validated_amount a p ∧
      thor_move_magnitude a q = thor_validated_amount a q) ∧
    (a ∈ MOVE_ACTIONS →
      move_magnitude a p = MOVE_DISTANCE ∧
      thor_move_magnitude a q = thor_validated_amount a q * MAX_MOVE_DISTANCE) ∧
    (a ∉ FORCE_ACTIONS → a ∉ OBJECT_MOVE_ACTIONS → a ∉ MOVE_ACTIONS →
      move_magnitude a p = MOVE_DISTANCE ∧
      thor_move_magnitude a q = MAX_MOVE_DISTANCE) := by
  refine ⟨rfl, rfl, ?_, ?_, ?_, ?_⟩
  · intro hf
    simp only [FORCE_ACTIONS, List.mem_cons, List.not_mem_nil, or_false] at hf
    rcases hf with hf | hf | hf <;> subst hf <;>
      constructor <;>
      simp [move_magnitude, thor_move_magnitude, FORCE_ACTIONS, OBJECT_MOVE_ACTIONS,
        MOVE_ACTIONS]
  · intro hm
    simp only [OBJECT_MOVE_ACTIONS, List.mem_cons, List.not_mem_nil, or_false] at hm
    rcases hm with hm | hm <;> subst hm <;>
      constructor <;>
      simp [move_magnitude, thor_move_magnitude, FORCE_ACTIONS, OBJECT_MOVE_ACTIONS,
        MOVE_ACTIONS]
  · intro hv
    simp only [MOVE_ACTIONS, List.mem_cons, List.not_mem_nil, or_false] at hv
    rcases hv with hv | hv | hv | hv <;> subst hv <;>
      constructor <;>
      simp [move_magnitude, thor_move_magnitude, FORCE_ACTIONS, OBJECT_MOVE_ACTIONS,
        MOVE_ACTIONS]
  · intro h1 h2 h3
    constructor
    · unfold move_magnitude
      simp [h1, h2, h3]
    · unfold thor_move_magnitude
      simp [h1, h2, h3]

/-- Witness for C6: one concrete action per category, in both variants. -/
theorem move_magnitude_by_category_witness :
    move_magnitude "ThrowObject" {} = validated_force {} * MAX_FORCE ∧
    move_magnitude "OpenObject" {} = validated_amount "OpenObject" {} ∧
    move_magnitude "MoveAhead" {} = MOVE_DISTANCE ∧
    move_magnitude "Pass" {} = MOVE_DISTANCE ∧
    thor_move_magnitude "MoveAhead" {} = thor_validated_amount "MoveAhead" {} * MAX_MOVE_DISTANCE ∧
    thor_move_magnitude "Pass" {} = MAX_MOVE_DISTANCE := by
  refine ⟨((move_magnitude_by_category "ThrowObject" {} {} 0).2.2.1 (by decide)).1,
    ((move_magnitude_by_category "OpenObject" {} {} 0).2.2.2.1 (by decide)).1,
    ((move_magnitude_by_category "MoveAhead" {} {} 0).2.2.2.2.1 (by decide)).1,
    ((move_magnitude_by_category "Pass" {} {} 0).2.2.2.2.2 (by decide) (by decide) (by decide)).1,
    ((move_magnitude_by_category "MoveAhead" {} {} 0).2.2.2.2.1 (by decide)).2,
    ((move_magnitude_by_category "Pass" {} {} 0).2.2.2.2.2 (by decide) (by decide) (by decide)).2⟩

/-! ## Claim C7 -/

/-- C7: the pixel-space Y coordinate sent to the engine equals
`screen_height - y` whenever `y` is not exactly zero, and `y` itself
(unflipped) when `y` is exactly zero; this applies to both the object and
the receptacle Y coordinate inside `validate_and_convert_params`, while the
X coordinates pass through unflipped (independently of the noise setting,
which never touches coordinates). -/
theorem y_coordinate_flip (h y : ℚ) (enableNoise : Bool) (nR nH nM : ℚ)
    (a : String) (p : RawParams) :
    (y ≠ 0 → convert_y_image_coord_for_unity h y = h - y) ∧
    (y = 0 → convert_y_image_coord_for_unity h y = y) ∧
    (validate_and_convert_params enableNoise nR nH nM h a p).objectImageCoordsX =
      p.objectImageCoordsX.getOr DEFAULT_IMG_COORD ∧
    (validate_and_convert_params enableNoise nR nH nM h a p).objectImageCoordsY =
      convert_y_image_coord_for_unity h (p.objectImageCoordsY.getOr DEFAULT_IMG_COORD) ∧
    (validate_and_convert_params enableNoise nR nH nM h a p).receptacleObjectImageCoordsX =
      p.receptacleObjectImageCoordsX.getOr DEFAULT_IMG_COORD ∧
    (validate_and_convert_params enableNoise nR nH nM h a p).receptacleObjectImageCoordsY =
      convert_y_image_coord_for_unity h
        (p.receptacleObjectImageCoordsY.getOr DEFAULT_IMG_COORD) := by
  refine ⟨?_, ?_, rfl, rfl, rfl, rfl⟩
  · intro hy
    unfold convert_y_image_coord_for_unity
    rw [if_pos hy]
  · intro hy
    unfold convert_y_image_coord_for_unity
    rw [if_neg (by simp [hy])]

/-- Witness for C7: a non-zero Y is flipped against the default screen
height, a zero Y passes through, and a concrete X passes through. -/
theorem y_coordinate_flip_witness :
    convert_y_image_coord_for_unity 400 30 = 400 - 30 ∧
    convert_y_image_coord_for_unity 400 0 = 0 ∧
    (validate_and_convert_params false 0 0 0 400 "PickupObject"
      { objectImageCoordsX := .num 25 }).objectImageCoordsX =
        (RawVal.num 25).getOr DEFAULT_IMG_COORD := by
  have h1 := y_coordinate_flip 400 30 false 0 0 0 "PickupObject"
    ({ objectImageCoordsX := .num 25 })
  exact ⟨h1.1 (by simp), (y_coordinate_flip 400 0 false 0 0 0 "Pass" {}).2.1 rfl,
    h1.2.2.1⟩

/-! ## Claim C8 -/

lemma restrict_target_image_idem (t : Option TargetMetadata) :
    restrict_target_image (restrict_target_image t) = restrict_target_image t := by
  cases t with
  | none => rfl
  | some tm =>
    cases htm : tm.image <;> simp [restrict_target_image, htm]

/-- C8: applying the metadata tier filter twice yields the same result as
applying it once — `restrict_step_output_metadata` and
`restrict_goal_output_metadata` (ctrl variant) and
`restrict_object_output_metadata` (thor variant) are idempotent, for every
tier/mode string and every snapshot, goal output, and object record. -/
theorem tier_filters_idempotent (tier : String) (s : StepMetadata) (g : GoalOutput)
    (o : ObjectMetadata) :
    restrict_step_output_metadata tier (restrict_step_output_metadata tier s) =
      restrict_step_output_metadata tier s ∧
    restrict_goal_output_metadata tier (restrict_goal_output_metadata tier g) =
      restrict_goal_output_metadata tier g ∧
    restrict_object_output_metadata tier (restrict_object_output_metadata tier o) =
      restrict_object_output_metadata tier o := by
  refine ⟨?_, ?_, ?_⟩
  · unfold restrict_step_output_metadata
    split <;> split <;> simp_all
  · unfold restrict_goal_output_metadata
    split <;> simp_all [restrict_target_image_idem]
  · unfold restrict_object_output_metadata
    split <;> split <;> simp_all

/-! ## Further step lemmas (for C9/C10) -/

lemma step_some_state (st : ControllerState) (e : EngineEvent) (nR nH nM : ℚ)
    (a : String) (p : RawParams) (out : StepMetadata) (st1 : ControllerState)
    (h : Controller.step st e nR nH nM a p = (some out, st1)) :
    st1 = (step_accepted (flush_pending st) e nR nH nM a p).2 := by
  have hinv := step_some_inv st e nR nH nM a p out (by rw [h])
  rw [step_accepted_run st e nR nH nM a p hinv.1 hinv.2] at h
  exact (congrArg Prod.snd h).symm

lemma step_some_out (st : ControllerState) (e : EngineEvent) (nR nH nM : ℚ)
    (a : String) (p : RawParams) (out : StepMetadata) (st1 : ControllerState)
    (h : Controller.step st e nR nH nM a p = (some out, st1)) :
    out = wrap_output
      { flush_pending st with
          step_number := (flush_pending st).step_number + 1,
          habituation_trial :=
            if mcs_action_to_ai2thor_action a = "EndHabituation" then
              (flush_pending st).habituation_trial + 1
            else (flush_pending st).habituation_trial } e := by
  have hinv := step_some_inv st e nR nH nM a p out (by rw [h])
  rw [step_accepted_run st e nR nH nM a p hinv.1 hinv.2] at h
  have hfst := congrArg Prod.fst h
  rw [step_accepted_fst] at hfst
  exact (Option.some.inj hfst).symm

lemma step_some_habituation (st : ControllerState) (e : EngineEvent) (nR nH nM : ℚ)
    (a : String) (p : RawParams) (out : StepMetadata) (st1 : ControllerState)
    (h : Controller.step st e nR nH nM a p = (some out, st1)) :
    st1.habituation_trial =
      if mcs_action_to_ai2thor_action a = "EndHabituation" then st.habituation_trial + 1
      else st.habituation_trial := by
  rw [step_some_state st e nR nH nM a p out st1 h, step_accepted_habituation,
    flush_pending_habituation]

lemma step_some_step_number (st : ControllerState) (e : EngineEvent) (nR nH nM : ℚ)
    (a : String) (p : RawParams) (out : StepMetadata) (st1 : ControllerState)
    (h : Controller.step st e nR nH nM a p = (some out, st1)) :
    st1.step_number = st.step_number + 1 := by
  rw [step_some_state st e nR nH nM a p out st1 h, step_accepted_step_number,
    flush_pending_step_number]

lemma step_none_habituation (st : ControllerState) (e : EngineEvent) (nR nH nM : ℚ)
    (a : String) (p : RawParams)
    (h : (Controller.step st e nR nH nM a p).1 = none) :
    (Controller.step st e nR nH nM a p).2.habituation_trial = st.habituation_trial := by
  by_cases hb : st.goal.last_step = some st.step_number
  · rw [step_rejected st e nR nH nM a p (Or.inl hb)]
    exact flush_pending_habituation st
  · by_cases ha : a ∈ retrieve_action_list (some st.goal) st.step_number
    · rw [step_accepted_run st e nR nH nM a p hb ha, step_accepted_fst] at h
      exact absurd h (by simp)
    · rw [step_rejected st e nR nH nM a p (Or.inr ha)]
      exact flush_pending_habituation st

lemma restrict_step_habituation (tier : String) (s : StepMetadata) :
    (restrict_step_output_metadata tier s).habituation_trial = s.habituation_trial := by
  unfold restrict_step_output_metadata
  split <;> split <;> rfl

lemma wrap_output_habituation (st : ControllerState) (e : EngineEvent) :
    (wrap_output st e).habituation_trial =
      if st.habituation_trial ≤ st.goal.habituation_total then some st.habituation_trial
      else none := by
  unfold wrap_output
  rw [restrict_step_habituation]

lemma preview_steps_habituation (eng : ℕ → EngineEvent) :
    ∀ (n i : ℕ) (st : ControllerState) (pr : List StepMetadata × ControllerState),
    preview_steps eng n i st = some pr → pr.2.habituation_trial = st.habituation_trial := by
  intro n
  induction n with
  | zero =>
    intro i st pr h
    simp only [preview_steps, Option.some.injEq] at h
    rw [← h]
  | succ k ih =>
    intro i st pr h
    unfold preview_steps at h
    cases hstep : Controller.step st (eng i) 0 0 0 "Pass" {} with
    | mk fst snd =>
      rw [hstep] at h
      cases fst with
      | none => exact absurd h (by simp)
      | some out =>
        dsimp only at h
        cases hrec : preview_steps eng k (i + 1) snd with
        | none =>
          rw [hrec] at h
          exact absurd h (by simp)
        | some pr2 =>
          rw [hrec] at h
          simp only [Option.some.injEq] at h
          have hh := ih (i + 1) snd pr2 hrec
          have hpass := step_some_habituation st (eng i) 0 0 0 "Pass" {} out snd hstep
          rw [← h]
          simp only [hh, hpass]
          rfl

lemma start_scene_habituation (cfg : ControllerConfig) (goal : GoalMetadata)
    (skip : Bool) (iE : EngineEvent) (eng : ℕ → EngineEvent)
    (r : StepMetadata × ControllerState)
    (h : start_scene cfg goal skip iE eng = some r) :
    r.2.habituation_trial = 1 := by
  simp only [start_scene] at h
  split at h
  · simp only [Option.some.injEq] at h
    rw [← h]
    rfl
  · cases hprev : preview_steps eng goal.last_preview_phase_step 0 (initial_state cfg goal) with
    | none =>
      rw [hprev] at h
      exact absurd h (by simp)
    | some pr =>
      rw [hprev] at h
      simp only [Option.some.injEq] at h
      have := preview_steps_habituation eng goal.last_preview_phase_step 0
        (initial_state cfg goal) pr hprev
      rw [← h]
      exact this

/-! ## Claim C9 -/

/-- C9: for every accepted step, the step's own record is not persisted when
the call returns — the call's only persistence effect is flushing the
previously pending record — and the new record (whose step index is the
updated counter) becomes the single pending record (at most one is pending
at any time, `history_item` being a single optional slot).  Annotations
attached afterwards via `make_step_prediction` are captured on the pending
record, and the record — annotations included — is persisted by the flush at
the start of the next `step` call (whatever its action), or by `end_scene`. -/
theorem delayed_history_flush (st : ControllerState) (e : EngineEvent) (nR nH nM : ℚ)
    (a : String) (p : RawParams) (out : StepMetadata) (st1 : ControllerState)
    (hstep : Controller.step st e nR nH nM a p = (some out, st1)) :
    (st1.history_written =
      st.history_written ++
        (if 0 < st.step_number then st.history_item.toList else [])) ∧
    (∃ rec, st1.history_item = some rec ∧ rec.step = st1.step_number) ∧
    st1.history_item.toList.length ≤ 1 ∧
    (∀ choice conf v i,
      ((make_step_prediction st1 choice conf v i).history_item.map
        (fun r => (r.classification, r.confidence))) = some (choice, conf) ∧
      (∀ e2 n1 n2 n3 a2 p2,
        (Controller.step (make_step_prediction st1 choice conf v i) e2 n1 n2 n3 a2 p2).2.history_written =
          st1.history_written ++
            (make_step_prediction st1 choice conf v i).history_item.toList) ∧
      (∀ ch cf,
        (end_scene (make_step_prediction st1 choice conf v i) ch cf).1 =
          st1.history_written ++
            (make_step_prediction st1 choice conf v i).history_item.toList)) := by
  have hwr : st1.history_written =
      st.history_written ++ (if 0 < st.step_number then st.history_item.toList else []) := by
    rw [show st1 = (Controller.step st e nR nH nM a p).2 by rw [hstep]]
    exact step_written st e nR nH nM a p
  have hitem : st1.history_item =
      some { step := (flush_pending st).step_number + 1,
             action := mcs_action_to_ai2thor_action a,
             params := validate_and_convert_params
               (flush_pending st).config.enable_noise nR nH nM
               (flush_pending st).config.screen_height a p,
             output_step_number :=
               (wrap_output
                 { flush_pending st with
                     step_number := (flush_pending st).step_number + 1,
                     habituation_trial :=
                       if mcs_action_to_ai2thor_action a = "EndHabituation" then
                         (flush_pending st).habituation_trial + 1
                       else (flush_pending st).habituation_trial } e).step_number } := by
    rw [step_some_state st e nR nH nM a p out st1 hstep]
    exact step_accepted_item (flush_pending st) e nR nH nM a p
  have hnum : st1.step_number = st.step_number + 1 :=
    step_some_step_number st e nR nH nM a p out st1 hstep
  refine ⟨hwr, ?_, ?_, ?_⟩
  · refine ⟨_, hitem, ?_⟩
    rw [hnum, ← flush_pending_step_number st]
  · rw [hitem]
    simp
  · intro choice conf v i
    refine ⟨?_, ?_, ?_⟩
    · unfold make_step_prediction
      rw [hitem]
      rfl
    · intro e2 n1 n2 n3 a2 p2
      rw [step_written]
      rw [make_step_prediction_written, make_step_prediction_step_number]
      rw [if_pos (by omega)]
    · intro ch cf
      show (make_step_prediction st1 choice conf v i).history_written ++
          (make_step_prediction st1 choice conf v i).history_item.toList =
        st1.history_written ++ (make_step_prediction st1 choice conf v i).history_item.toList
      rw [make_step_prediction_written]

/-- Witness for C9: a fresh scene, one accepted `Pass` step.  The call
persists nothing (the history target is still empty), the pending record
carries step index 1; after annotating with a choice, the annotation sits on
the pending record, and the next call's flush persists exactly that record. -/
def c9_state : ControllerState := initial_state {} {}

theorem delayed_history_flush_witness :
    ((Controller.step c9_state {} 0 0 0 "Pass" {}).2.history_written =
      c9_state.history_written ++
        (if 0 < c9_state.step_number then c9_state.history_item.toList else [])) ∧
    (∃ rec, (Controller.step c9_state {} 0 0 0 "Pass" {}).2.history_item = some rec ∧
      rec.step = (Controller.step c9_state {} 0 0 0 "Pass" {}).2.step_number) ∧
    ((make_step_prediction (Controller.step c9_state {} 0 0 0 "Pass" {}).2
        (some "expected") (some 1) none none).history_item.map
      (fun r => (r.classification, r.confidence))) = some (some "expected", some 1) ∧
    (∀ e2 n1 n2 n3 a2 p2,
      (Controller.step (make_step_prediction (Controller.step c9_state {} 0 0 0 "Pass" {}).2
          (some "expected") (some 1) none none) e2 n1 n2 n3 a2 p2).2.history_written =
        (Controller.step c9_state {} 0 0 0 "Pass" {}).2.history_written ++
          (make_step_prediction (Controller.step c9_state {} 0 0 0 "Pass" {}).2
            (some "expected") (some 1) none none).history_item.toList) := by
  have h := delayed_history_flush c9_state {} 0 0 0 "Pass" {} _ _ rfl
  exact ⟨h.1, h.2.1, (h.2.2.2 (some "expected") (some 1) none none).1,
    (h.2.2.2 (some "expected") (some 1) none none).2.1⟩

/-! ## Claim C10 -/

/-- C10: within a scene the habituation-trial counter starts at 1
(`start_scene` resets it, and the auto-executed `Pass` preview steps never
bump it); an accepted step increments it exactly when the translated action
is the boundary marker `EndHabituation` (and only `EndHabituation` translates
to that marker); a rejected call leaves it unchanged; and the returned
snapshot's `habituation_trial` field equals the (updated) counter while the
counter is at most the goal's `habituation_total`, and is `None` once the
counter exceeds it. -/
theorem habituation_trial_counter (st : ControllerState) (e : EngineEvent)
    (nR nH nM : ℚ) (a : String) (p : RawParams) (out : StepMetadata)
    (st1 : ControllerState)
    (hstep : Controller.step st e nR nH nM a p = (some out, st1)) :
    (st1.habituation_trial =
      if mcs_action_to_ai2thor_action a = "EndHabituation" then st.habituation_trial + 1
      else st.habituation_trial) ∧
    (out.habituation_trial =
      if st1.habituation_trial ≤ st.goal.habituation_total then some st1.habituation_trial
      else none) ∧
    (∀ b, mcs_action_to_ai2thor_action b = "EndHabituation" ↔ b = "EndHabituation") ∧
    (∀ st2 e2 n1 n2 n3 a2 p2, (Controller.step st2 e2 n1 n2 n3 a2 p2).1 = none →
      (Controller.step st2 e2 n1 n2 n3 a2 p2).2.habituation_trial = st2.habituation_trial) ∧
    (∀ cfg goal skip iE eng r, start_scene cfg goal skip iE eng = some r →
      r.2.habituation_trial = 1) := by
  have hhab := step_some_habituation st e nR nH nM a p out st1 hstep
  refine ⟨hhab, ?_, ?_, step_none_habituation, fun cfg goal skip iE eng r h =>
    start_scene_habituation cfg goal skip iE eng r h⟩
  · rw [step_some_out st e nR nH nM a p out st1 hstep, wrap_output_habituation]
    have hg : ({ flush_pending st with
        step_number := (flush_pending st).step_number + 1,
        habituation_trial :=
          if mcs_action_to_ai2thor_action a = "EndHabituation" then
            (flush_pending st).habituation_trial + 1
          else (flush_pending st).habituation_trial } : ControllerState).goal = st.goal := by
      rw [show ({ flush_pending st with
        step_number := (flush_pending st).step_number + 1,
        habituation_trial :=
          if mcs_action_to_ai2thor_action a = "EndHabituation" then
            (flush_pending st).habituation_trial + 1
          else (flush_pending st).habituation_trial } : ControllerState).goal =
        (flush_pending st).goal from rfl]
      exact flush_pending_goal st
    have hh : ({ flush_pending st with
        step_number := (flush_pending st).step_number + 1,
        habituation_trial :=
          if mcs_action_to_ai2thor_action a = "EndHabituation" then
            (flush_pending st).habituation_trial + 1
          else (flush_pending st).habituation_trial } : ControllerState).habituation_trial =
        st1.habituation_trial := by
      rw [hhab]
      rw [show ({ flush_pending st with
        step_number := (flush_pending st).step_number + 1,
        habituation_trial :=
          if mcs_action_to_ai2thor_action a = "EndHabituation" then
            (flush_pending st).habituation_trial + 1
          else (flush_pending st).habituation_trial } : ControllerState).habituation_trial =
        if mcs_action_to_ai2thor_action a = "EndHabituation" then
          (flush_pending st).habituation_trial + 1
        else (flush_pending st).habituation_trial from rfl]
      rw [flush_pending_habituation]
    rw [hg, hh]
  · intro b
    constructor
    · intro hb
      unfold mcs_action_to_ai2thor_action at hb
      split at hb
      · exact absurd hb (by decide)
      · split at hb
        · exact absurd hb (by decide)
        · split at hb
          · exact absurd hb (by decide)
          · exact hb
    · intro hb
      subst hb
      rfl

/-- Witness for C10: a goal with `habituation_total = 2`; the accepted
`EndHabituation` step bumps the counter from 1 to 2 and the snapshot reports
trial 2; a second `EndHabituation` step bumps it to 3, past the total, and
the snapshot reports `None`. -/
def c10_state : ControllerState := initial_state {} { habituation_total := 2 }

theorem habituation_trial_counter_witness :
    ((Controller.step c10_state {} 0 0 0 "EndHabituation" {}).2.habituation_trial =
      if mcs_action_to_ai2thor_action "EndHabituation" = "EndHabituation" then
        c10_state.habituation_trial + 1
      else c10_state.habituation_trial) ∧
    ((Controller.step c10_state {} 0 0 0 "EndHabituation" {}).2.habituation_trial = 2) ∧
    ((Controller.step c10_state {} 0 0 0 "EndHabituation" {}).1 = some
      (wrap_output
        { flush_pending c10_state with
            step_number := (flush_pending c10_state).step_number + 1,
            habituation_trial :=
              if mcs_action_to_ai2thor_action "EndHabituation" = "EndHabituation" then
                (flush_pending c10_state).habituation_trial + 1
              else (flush_pending c10_state).habituation_trial } {})) ∧
    ((wrap_output
        { flush_pending c10_state with
            step_number := (flush_pending c10_state).step_number + 1,
            habituation_trial :=
              if mcs_action_to_ai2thor_action "EndHabituation" = "EndHabituation" then
                (flush_pending c10_state).habituation_trial + 1
              else (flush_pending c10_state).habituation_trial } {}).habituation_trial =
      some 2) ∧
    mcs_action_to_ai2thor_action "EndHabituation" = "EndHabituation" := by
  have h := habituation_trial_counter c10_state {} 0 0 0 "EndHabituation" {} _ _ rfl
  exact ⟨h.1, h.1.trans (by rfl), rfl, h.2.1.trans (by rfl),
    (h.2.2.1 "EndHabituation").mpr rfl⟩

end MCS
